import Mathlib

/-!
Verification of the vTrain trainer instrumentation core (`src/trainer.py`)
against its natural-language specification.

The Python code is shallowly embedded: pure computations become Lean
functions, the straight-line effect order of `Trainer.train` becomes an
explicit action list, fallible code returns `Option`/`Except`, and CPython's
stable `list.sort(key=...)` is modelled by `List.mergeSort` on the same key.
-/

namespace VTrain

/-- A tensor parameter of a submodule; only its `requires_grad` flag is
inspected by `modify_functions` (trainer.py line 36). -/
structure Param where
  requires_grad : Bool
deriving DecidableEq

/-- A callable that can sit in a module's `forward` or `forward_` instance
attribute: either the module's `original` forward (which emits no
instrumentation events), or the `wrapper` `forward_with_info` installed by
`modify_functions` — there is only one wrapper function, and its body
delegates by looking up `self.forward_` dynamically at call time
(trainer.py line 19). -/
inductive Slot where
  | original : Slot
  | wrapper : Slot
deriving DecidableEq

/-- The pair of forward-related instance attributes of a module:
`unwrapped` is the pristine state (`forward` is the original method,
`forward_` does not exist yet); `wrappedOver u` is the state after wrapping,
with `forward` = the wrapper and `forward_` = `u`, the callable that
`m.forward` held at wrap time (trainer.py line 34). -/
inductive FwdAttrs where
  | unwrapped : FwdAttrs
  | wrappedOver : Slot → FwdAttrs
deriving DecidableEq

/-- trainer.py lines 34-35, `m.forward_ = m.forward; m.forward = wrapper`:
unconditionally saves the current forward into `forward_` and installs the
wrapper.  On a pristine module `forward_` becomes the original forward; on
an already-wrapped module `forward_` becomes the wrapper itself. -/
def wrapFwd : FwdAttrs → FwdAttrs
  | FwdAttrs.unwrapped => FwdAttrs.wrappedOver Slot.original
  | FwdAttrs.wrappedOver _ => FwdAttrs.wrappedOver Slot.wrapper

/-- Outcome of invoking a module's forward: `ok p` means the call completed,
emitting `p` properly nested "forward start"/"forward end" pairs;
`recursionError n` means CPython's recursion limit was hit after `n` frames
had each emitted "forward start", the `RecursionError` propagating before
any of them reached its "forward end". -/
inductive CallOutcome where
  | ok : Nat → CallOutcome
  | recursionError : Nat → CallOutcome
deriving DecidableEq

/-- Invoking the callable `s` on a module whose `forward_` attribute holds
`u`, with `fuel` remaining stack frames before CPython's recursion limit.
The original forward emits nothing and returns.  The wrapper emits
"forward start", then calls `self.forward_(*x)` — a *dynamic* lookup of the
shared instance attribute, so the callee is `u` and, if `u` is itself the
wrapper, its body again reads the same `forward_` — and only after that
call returns does it emit "forward end". -/
def callSlot (u : Slot) : Nat → Slot → CallOutcome
  | _, Slot.original => CallOutcome.ok 0
  | 0, Slot.wrapper => CallOutcome.recursionError 0
  | fuel + 1, Slot.wrapper =>
    match callSlot u fuel u with
    | CallOutcome.ok p => CallOutcome.ok (p + 1)
    | CallOutcome.recursionError n => CallOutcome.recursionError (n + 1)

/-- Invoking `m.forward(x)` on a module whose forward attributes are in
state `st`, with `fuel` remaining stack frames. -/
def callForward : FwdAttrs → Nat → CallOutcome
  | FwdAttrs.unwrapped, _ => CallOutcome.ok 0
  | FwdAttrs.wrappedOver u, fuel => callSlot u fuel Slot.wrapper

/-- One top-level submodule of the model, i.e. one entry of
`model.named_children()` (trainer.py line 33).  `bwdHooks` counts how many
times `register_full_backward_hook(backward_hook)` has been called on it
(line 37): each registered hook emits one "backward end" event per backward
pass. -/
structure Child where
  name : String
  params : List Param
  fwd : FwdAttrs
  bwdHooks : Nat
deriving DecidableEq

/-- trainer.py line 36: `all(p.requires_grad for p in m.parameters())`.
Python's `all` over an empty iterable is `True`, exactly as `List.all`. -/
def registersBackwardHook (c : Child) : Bool :=
  c.params.all (fun p => p.requires_grad)

/-- Effect of one iteration of the loop in `modify_functions` (trainer.py
lines 33-37) on one child: `m.forward_ = m.forward; m.forward = wrapper`
wraps the forward once more, and the full backward hook is registered when
`all(p.requires_grad for p in m.parameters())` holds. -/
def modifyChild (c : Child) : Child :=
  { c with
      fwd := wrapFwd c.fwd,
      bwdHooks := c.bwdHooks + (if registersBackwardHook c then 1 else 0) }

/-- trainer.py lines 16-39, `modify_functions(model)`: applies the wrapping
loop to every top-level child of the model. -/
def modify_functions (model : List Child) : List Child :=
  model.map modifyChild

/-- A layer with no parameters at all (e.g. a pure reshaping layer). -/
def noParamChild : Child :=
  { name := "frozen", params := [], fwd := FwdAttrs.unwrapped, bwdHooks := 0 }

/-- An ordinary unwrapped layer with one trainable parameter. -/
def baseChild : Child :=
  { name := "L", params := [{ requires_grad := true }],
    fwd := FwdAttrs.unwrapped, bwdHooks := 0 }

/-- One optimizer parameter group as built at trainer.py lines 92-94. -/
structure ParamGroup where
  params : List Param
  lr : ℚ
  momentum : ℚ
  weight_decay : ℚ
  layer : String

/-- trainer.py lines 92-94: one group per entry of `self.layers[:-1]`
(Python slicing off the last element is `List.dropLast`), in enumeration
order, with the literal hyperparameters of the source. -/
def mkParamGroups (layers : List Child) : List ParamGroup :=
  layers.dropLast.map (fun l =>
    { params := l.params, lr := 0.01, momentum := 0.9, weight_decay := 5e-4,
      layer := l.name })

/-- ASCII whitespace trimming, modelling the strip Python's `int` applies to
its string argument before parsing. -/
def trimChars (cs : List Char) : List Char :=
  ((cs.dropWhile Char.isWhitespace).reverse.dropWhile Char.isWhitespace).reverse

/-- Remaining digits of a Python decimal integer literal after the first
digit, with `acc` the value read so far.  A single underscore is permitted
between two digits (CPython's grouping rule); anything else is a parse
failure, as in `int(...)` raising `ValueError`. -/
def parseDigitsU : Nat → List Char → Option Nat
  | acc, [] => some acc
  | acc, c :: cs =>
    if c.isDigit then parseDigitsU (10 * acc + (c.toNat - 48)) cs
    else if c == '_' then
      match cs with
      | [] => none
      | c2 :: cs2 =>
        if c2.isDigit then parseDigitsU (10 * acc + (c2.toNat - 48)) cs2
        else none
    else none

/-- An unsigned Python decimal integer literal: at least one digit, then
`parseDigitsU`. -/
def pyNat? : List Char → Option Nat
  | [] => none
  | c :: cs => if c.isDigit then parseDigitsU (c.toNat - 48) cs else none

/-- Python's `int(s)` on a decimal string: optional surrounding whitespace,
optional sign, digits.  `none` models `int` raising `ValueError` (notably on
float literals such as "3.5"). -/
def pyInt? (s : String) : Option Int :=
  match trimChars s.toList with
  | '+' :: cs => (pyNat? cs).map (fun n => (n : Int))
  | '-' :: cs => (pyNat? cs).map (fun n => -(n : Int))
  | cs => (pyNat? cs).map (fun n => (n : Int))

/-- `l.split(',')[0]` (trainer.py line 127): the prefix of the line before
the first comma, or the whole line if it has no comma — Python's
`str.split` always yields at least one field. -/
def leadingField (s : String) : String :=
  String.mk (s.toList.takeWhile (fun c => c != ','))

/-- The sort key `int(l.split(',')[0])` of trainer.py line 127; `none` where
Python raises. -/
def lineKey? (s : String) : Option Int :=
  pyInt? (leadingField s)

/-- Total version of the sort key, defaulting to 0; `train` only ever sorts
logs on which every key parses, where both versions agree. -/
def lineKey (s : String) : Int :=
  (lineKey? s).getD 0

/-- trainer.py line 127: `traces.sort(key=lambda l: int(l.split(',')[0]))`.
CPython's `list.sort` is a stable ascending sort on the key, modelled by the
stable `List.mergeSort` on the same key. -/
def sortTrace (log : List String) : List String :=
  log.mergeSort (fun a b => decide (lineKey a ≤ lineKey b))

/-- trainer.py lines 126-132, the post-processing of the raw trace: sorting
raises (abstracted as `none`) as soon as any line's leading field is not a
valid Python integer literal, and the exception propagates before the
destination file is opened at line 131, so nothing is written; otherwise the
sorted lines are written (`some`). -/
def postProcess (log : List String) : Option (List String) :=
  if log.all (fun s => (lineKey? s).isSome) then some (sortTrace log) else none

/-- Splits a character list at the first dot, if any. -/
def splitAtDot : List Char → List Char × Option (List Char)
  | [] => ([], none)
  | c :: cs =>
    if c == '.' then ([], some cs)
    else
      let r := splitAtDot cs
      (c :: r.1, r.2)

/-- Modelled from the spec (for the refinement comparison only): the output
format clause "<integer-or-float-timestamp>" — an optional sign, then either
a decimal integer or a decimal float `digits.digits`. -/
def isSpecNumericTimestamp (s : String) : Bool :=
  let t := match s.toList with
    | '+' :: r => r
    | '-' :: r => r
    | r => r
  match splitAtDot t with
  | (ip, none) => !ip.isEmpty && ip.all Char.isDigit
  | (ip, some fp) =>
    !ip.isEmpty && ip.all Char.isDigit && !fp.isEmpty && fp.all Char.isDigit

/-- A PyTorch module as far as `Trainer.__init__` observes it: its
`named_children()` list. -/
inductive PyModule where
  | mk : List (String × PyModule) → PyModule

/-- The `named_children()` list of a module. -/
def PyModule.children : PyModule → List (String × PyModule)
  | PyModule.mk cs => cs

/-- FSDP wrapping (trainer.py lines 66-71): torch's `FullyShardedDataParallel`
stores the wrapped module as its single child, named `_fsdp_wrapped_module`,
so the wrapper's `named_children()` no longer exposes the original top-level
submodules or their names. -/
def fsdpWrap (m : PyModule) : PyModule :=
  PyModule.mk [("_fsdp_wrapped_module", m)]

/-- The fields of `Trainer` relevant to layer naming and parameter-group
construction. -/
structure TrainerState where
  model : PyModule
  layers : List PyModule
  layerNames : List String

/-- `Trainer.__init__` (trainer.py lines 43-54): when `config.use_fsdp` is
set, `self.model` is replaced by the FSDP wrapper first (line 49), and only
afterwards are `self.layers` (line 51) and the layer names (lines 53-54)
taken from `self.model.named_children()`. -/
def trainerInit (use_fsdp : Bool) (model0 : PyModule) : TrainerState :=
  let m := if use_fsdp then fsdpWrap model0 else model0
  { model := m,
    layers := m.children.map Prod.snd,
    layerNames := m.children.map Prod.fst }

/-- A model with two named top-level submodules. -/
def twoLayerModel : PyModule :=
  PyModule.mk [("L1", PyModule.mk []), ("L2", PyModule.mk [])]

/-- Externally observable actions of `Trainer.train` (trainer.py
lines 101-132), in program order. -/
inductive Action where
  | modifyFunctions : Action
  | cudnnBenchmark : Bool → Action
  | trainStep : Bool → Action
  | emptyCache : Action
  | sync : Action
  | initTrace : Action
  | finishTrace : Action
  | sortTraces : Action
  | writeFile : Action
deriving DecidableEq

/-- The straight-line action sequence of `Trainer.train` (lines 101-132):
`modify_functions` (102), `cudnn.benchmark = True` (110), ten warm-up steps
each followed by `empty_cache` (111-113), `cudnn.benchmark = False` (114),
`num_step = 5` steady steps (116-117), `synchronize` (118), `init_trace`
(121), the single profiled step (123), `synchronize` (125), `finish_trace`
(126), the sort (127) and the file write (131-132). -/
def trainActions : List Action :=
  [Action.modifyFunctions, Action.cudnnBenchmark true]
    ++ (List.replicate 10 [Action.trainStep false, Action.emptyCache]).flatten
    ++ [Action.cudnnBenchmark false]
    ++ List.replicate 5 (Action.trainStep false)
    ++ [Action.sync, Action.initTrace, Action.trainStep true, Action.sync,
        Action.finishTrace, Action.sortTraces, Action.writeFile]

/-- Modelled from the spec: the repository file `model/fused_adam.py`
(imported at trainer.py line 8) is not under `src/`.  Per the spec, the
optimizer's `step`, "when invoked during the PROFILED phase, is told to also
contribute profiling events" and "emits its own start/end timestamps through
the same Recorder"; the spec does not fix the label text, so neutral labels
are used. -/
def optimizerStepLabels : List String :=
  ["optimizer step start", "optimizer step end"]

/-- Labels emitted, in program order, by one profiled `train_step`
(trainer.py lines 138-151) on a sequential model whose wrapped top-level
layers are `names`: each layer's forward brackets (lines 18-20) in
architecture order, the loss brackets from `criterion` (lines 86-88), then —
since autograd runs in reverse topological order — each layer's
`backward_pre_hook` (line 25) and full backward hook (line 31) in reverse
order, and finally the optimizer's own profiled events (line 150). -/
def profiledStepLabels (names : List String) : List String :=
  (names.map (fun n => ["forward start " ++ n, "forward end " ++ n])).flatten
    ++ ["forward start loss", "forward end loss"]
    ++ (names.reverse.map
          (fun n => ["backward start " ++ n, "backward end " ++ n])).flatten
    ++ optimizerStepLabels

/-- The recorder (`vtrain_profiler.timestamp`) stamps each event with a
monotonic clock; modelled as a logical counter starting at `t`, producing
the serialized line format "<timestamp>,<label>". -/
def stampLabels (t : Nat) : List String → List String
  | [] => []
  | l :: ls => (toString t ++ "," ++ l) :: stampLabels (t + 1) ls

/-- The trace `train` produces for one profiled step: the stamped emission
sequence, then sorted as at trainer.py line 127. -/
def profiledTrace (names : List String) : List String :=
  sortTrace (stampLabels 0 (profiledStepLabels names))

/-- The expected trace of the three-layer scenario, written out. -/
def expectedTrace3 : List String :=
  ["0,forward start L1", "1,forward end L1",
   "2,forward start L2", "3,forward end L2",
   "4,forward start L3", "5,forward end L3",
   "6,forward start loss", "7,forward end loss",
   "8,backward start L3", "9,backward end L3",
   "10,backward start L2", "11,backward end L2",
   "12,backward start L1", "13,backward end L1",
   "14,optimizer step start", "15,optimizer step end"]

/-- Runs the untimed step cycles with indices `ks` in order; `failAt k = true`
models the external engine raising an exception inside step `k`, which
trainer.py does not catch, so the first failing step aborts the sequence. -/
def runSteps (failAt : Nat → Bool) : List Nat → Except Nat Unit
  | [] => Except.ok ()
  | k :: ks => if failAt k then Except.error k else runSteps failAt ks

/-- Control flow of `Trainer.train` with fallible step cycles: the ten
warm-up steps (indices 0-9, lines 111-113), the five steady steps (indices
10-14, lines 116-117), and then the single profiled step (index 15, line
123) whose trace is post-processed.  An uncaught exception anywhere
propagates out of `train` and no trace is produced. -/
def runTrain (failAt : Nat → Bool) (names : List String) :
    Except Nat (List String) :=
  match runSteps failAt (List.range 10 ++ (List.range 5).map (fun i => 10 + i)) with
  | Except.error e => Except.error e
  | Except.ok _ =>
    if failAt 15 then Except.error 15
    else Except.ok (profiledTrace names)

/-- An abstract backward-graph node (a tensor's `grad_fn`). -/
inductive GradFn where
  | node : Nat → GradFn
deriving DecidableEq

/-- A Python value as returned by a layer's original forward: a tensor
(whose `grad_fn` attribute may be `None`, e.g. under `torch.no_grad`), or a
tuple of values (which has no `grad_fn` attribute at all). -/
inductive PyValue where
  | tensor : Option GradFn → PyValue
  | tuple : List PyValue → PyValue

/-- Attribute lookup `ret.grad_fn`: tensors have the attribute (possibly
`None`); tuples do not (`AttributeError`). -/
def gradFnAttr : PyValue → Option (Option GradFn)
  | PyValue.tensor g => some g
  | PyValue.tuple _ => none

/-- The Python exceptions relevant to `forward_with_info`. -/
inductive PyExn where
  | attributeError : PyExn
deriving DecidableEq

/-- `forward_with_info` (trainer.py lines 17-28), given the value `ret`
returned by the original forward: it has already emitted the forward
start/end pair, then evaluates `ret.grad_fn.register_prehook(...)`.  If
`ret` lacks a `grad_fn` attribute (a tuple), or its `grad_fn` is `None`,
that line raises `AttributeError` and the wrapper never returns `ret`;
otherwise the prehook is registered on the node and `ret` is returned
unchanged. -/
def forward_with_info (name : String) (ret : PyValue) :
    List String × Except PyExn PyValue :=
  (["forward start " ++ name, "forward end " ++ name],
    match gradFnAttr ret with
    | none => Except.error PyExn.attributeError
    | some none => Except.error PyExn.attributeError
    | some (some _) => Except.ok ret)

/-- C1 counterexample: Python's `all` over the empty parameter list is
`True`, so `modify_functions` registers the backward-end hook on a layer
with no parameters at all, which the claim says is excluded from this
registration. -/
theorem noParamLayerGetsBackwardHook :
    registersBackwardHook noParamChild = true ∧
    (modifyChild noParamChild).bwdHooks = 1 := by
  constructor <;> rfl

/-- C1 (amended): `modify_functions` registers the backward-end hook on a
layer if and only if every parameter of the layer requires gradients — a
condition that holds vacuously for a layer with no parameters at all, so
such a layer also receives the backward-end hook. -/
theorem backwardHookIffAllParamsRequireGrad (c : Child) :
    ((modifyChild c).bwdHooks = c.bwdHooks + 1 ↔
      ∀ p ∈ c.params, p.requires_grad = true) ∧
    (c.params = [] → (modifyChild c).bwdHooks = c.bwdHooks + 1) := by
  have hiff : registersBackwardHook c = true ↔
      ∀ p ∈ c.params, p.requires_grad = true := by
    simp [registersBackwardHook]
  cases hb : registersBackwardHook c with
  | true =>
    have hh : (modifyChild c).bwdHooks = c.bwdHooks + 1 := by
      simp [modifyChild, hb]
    exact ⟨hh ▸ iff_of_true rfl (hiff.mp hb), fun _ => hh⟩
  | false =>
    have hh : (modifyChild c).bwdHooks = c.bwdHooks := by
      simp [modifyChild, hb]
    refine ⟨?_, ?_⟩
    · rw [hh]
      refine iff_of_false (by omega) (fun h => ?_)
      rw [hiff.mpr h] at hb
      exact Bool.noConfusion hb
    · intro h
      rw [hiff.mpr (by simp [h])] at hb
      exact Bool.noConfusion hb

/-- Witness for the C1 amended theorem at the parameter-free layer. -/
theorem backwardHookIffAllParamsRequireGradWitness :
    (modifyChild noParamChild).bwdHooks = noParamChild.bwdHooks + 1 :=
  (backwardHookIffAllParamsRequireGrad noParamChild).2 rfl

/-- C2: for a model with at least two top-level submodules, the parameter
groups built at trainer.py lines 92-95 contain, in enumeration order, one
group per layer (carrying that layer's name and parameters) for every layer
except exactly the last. -/
theorem paramGroupsExcludeExactlyLastLayer (layers : List Child)
    (_h : 2 ≤ layers.length) :
    (mkParamGroups layers).length = layers.length - 1 ∧
    (mkParamGroups layers).map (fun g => (g.layer, g.params))
      = (layers.take (layers.length - 1)).map (fun c => (c.name, c.params)) := by
  constructor
  · simp [mkParamGroups]
  · rw [← List.dropLast_eq_take]
    simp only [mkParamGroups, List.map_map]
    rfl

/-- Witness for C2 on a three-layer model. -/
theorem paramGroupsExcludeExactlyLastLayerWitness :
    2 ≤ ([baseChild, noParamChild, baseChild] : List Child).length ∧
    ((mkParamGroups [baseChild, noParamChild, baseChild]).length
        = [baseChild, noParamChild, baseChild].length - 1 ∧
      (mkParamGroups [baseChild, noParamChild, baseChild]).map
          (fun g => (g.layer, g.params))
        = (([baseChild, noParamChild, baseChild] : List Child).take
            ([baseChild, noParamChild, baseChild].length - 1)).map
            (fun c => (c.name, c.params))) :=
  ⟨by decide, paramGroupsExcludeExactlyLastLayer _ (by decide)⟩

/-- C5 counterexample: with `use_fsdp` set, `self.layers` is computed from
the already-wrapped `self.model` (trainer.py line 51 runs after line 49), so
for a model with two top-level submodules it holds the single FSDP wrapper
child instead of the two pre-shard submodules. -/
theorem fsdpLayersNotPreShard :
    (trainerInit true twoLayerModel).layers
      ≠ twoLayerModel.children.map Prod.snd := by
  intro h
  have h1 : (trainerInit true twoLayerModel).layers = [twoLayerModel] := rfl
  have h2 : twoLayerModel.children.map Prod.snd
      = [PyModule.mk [], PyModule.mk []] := rfl
  rw [h1, h2] at h
  exact absurd (congrArg List.length h) (by decide)

/-- C5 (amended): the layer references and layer names are taken from the
current `self.model` *after* optional FSDP wrapping — under `use_fsdp` they
are the wrapper's single child `_fsdp_wrapped_module` (the whole pre-shard
model as one layer), not the pre-shard top-level submodules; only without
FSDP do they coincide with the model's own submodules. -/
theorem layersTakenFromWrappedModel (m : PyModule) :
    (trainerInit true m).layers = [m] ∧
    (trainerInit true m).layerNames = ["_fsdp_wrapped_module"] ∧
    (trainerInit false m).layers = m.children.map Prod.snd :=
  ⟨rfl, rfl, rfl⟩

/-- A wrapper whose `forward_` attribute holds the wrapper itself never
terminates on its own: every frame's dynamic `self.forward_` lookup yields
the wrapper again, so the call consumes the whole remaining stack, each
frame emitting one unmatched "forward start", until `RecursionError`. -/
theorem callSlotWrapperLoop : ∀ fuel : Nat,
    callSlot Slot.wrapper fuel Slot.wrapper
      = CallOutcome.recursionError fuel := by
  intro fuel
  induction fuel with
  | zero => rfl
  | succ f ih => simp [callSlot, ih]

/-- C6 counterexample: `modify_functions` has no already-wrapped guard, and
`train` re-runs it on every invocation (trainer.py line 102).  A second
application saves the first wrapper into `forward_` and re-installs the
wrapper, so invoking the twice-wrapped forward loops through the shared
`forward_` attribute: with CPython's default recursion limit of 1000 it
aborts with `RecursionError` after 1000 unmatched "forward start" emissions
and completes no "forward start"/"forward end" pair at all — whereas a
single wrap emits exactly one pair. -/
theorem doubleWrapBreaksForward :
    wrapFwd (wrapFwd FwdAttrs.unwrapped) = FwdAttrs.wrappedOver Slot.wrapper ∧
    callForward (wrapFwd (wrapFwd FwdAttrs.unwrapped)) 1000
      = CallOutcome.recursionError 1000 ∧
    callForward (wrapFwd FwdAttrs.unwrapped) 1000 = CallOutcome.ok 1 := by
  refine ⟨rfl, ?_, rfl⟩
  show callSlot Slot.wrapper 1000 Slot.wrapper
      = CallOutcome.recursionError 1000
  exact callSlotWrapperLoop 1000

/-- C6 (amended): wrapping is not guarded — `modify_functions`
unconditionally re-wraps every layer it visits.  A single application to an
unwrapped layer makes its forward emit exactly one "forward start"/"forward
end" pair per invocation, but re-application (e.g. a second `train` call on
the same Trainer) points the shared `forward_` attribute at the wrapper
itself, so the re-wrapped forward no longer completes any pair: every
invocation recurses until the interpreter's stack limit and aborts with
`RecursionError` after emitting one unmatched "forward start" per
consumed frame. -/
theorem modifyFunctionsUnguardedRewrapDiverges (model : List Child)
    (c : Child) (h : c ∈ model) (fuel : Nat) (hfuel : 1 ≤ fuel) :
    modifyChild c ∈ modify_functions model ∧
    (modifyChild c).fwd = wrapFwd c.fwd ∧
    (c.fwd = FwdAttrs.unwrapped →
      callForward (modifyChild c).fwd fuel = CallOutcome.ok 1) ∧
    (∀ u : Slot, c.fwd = FwdAttrs.wrappedOver u →
      callForward (modifyChild c).fwd fuel
        = CallOutcome.recursionError fuel) := by
  refine ⟨List.mem_map_of_mem _ h, rfl, ?_, ?_⟩
  · intro hb
    show callForward (wrapFwd c.fwd) fuel = CallOutcome.ok 1
    rw [hb]
    cases fuel with
    | zero => exact absurd hfuel (by omega)
    | succ f => simp [callForward, wrapFwd, callSlot]
  · intro u hu
    show callForward (wrapFwd c.fwd) fuel = CallOutcome.recursionError fuel
    rw [hu]
    show callSlot Slot.wrapper fuel Slot.wrapper
        = CallOutcome.recursionError fuel
    exact callSlotWrapperLoop fuel

/-- Witness for the C6 amended theorem on a one-layer model at the default
recursion limit. -/
theorem modifyFunctionsUnguardedRewrapDivergesWitness :
    baseChild ∈ [baseChild] ∧ (1 : Nat) ≤ 1000 ∧
    (modifyChild baseChild ∈ modify_functions [baseChild] ∧
      (modifyChild baseChild).fwd = wrapFwd baseChild.fwd ∧
      (baseChild.fwd = FwdAttrs.unwrapped →
        callForward (modifyChild baseChild).fwd 1000 = CallOutcome.ok 1) ∧
      (∀ u : Slot, baseChild.fwd = FwdAttrs.wrappedOver u →
        callForward (modifyChild baseChild).fwd 1000
          = CallOutcome.recursionError 1000)) :=
  ⟨by decide, by decide,
    modifyFunctionsUnguardedRewrapDiverges [baseChild] baseChild (by decide)
      1000 (by decide)⟩

/-- C10: if the original forward's return value has no `grad_fn` attribute
(e.g. a tuple) or its `grad_fn` is `None` (e.g. a tensor computed with
gradients disabled), the instrumented forward raises `AttributeError` at
`ret.grad_fn.register_prehook(...)` (trainer.py line 27) instead of
returning the original result. -/
theorem wrappedForwardRaisesWithoutGradFn (name : String) (ret : PyValue)
    (h : gradFnAttr ret = none ∨ gradFnAttr ret = some none) :
    (forward_with_info name ret).2 = Except.error PyExn.attributeError := by
  rcases h with h | h <;> simp [forward_with_info, h]

/-- Witness for C10 at a tuple-returning forward. -/
theorem wrappedForwardRaisesWithoutGradFnWitness :
    (gradFnAttr (PyValue.tuple []) = none ∨
      gradFnAttr (PyValue.tuple []) = some none) ∧
    (forward_with_info "L1" (PyValue.tuple [])).2
      = Except.error PyExn.attributeError :=
  ⟨Or.inl rfl,
    wrappedForwardRaisesWithoutGradFn "L1" (PyValue.tuple []) (Or.inl rfl)⟩

/-- C3 counterexample: "3.5" is a valid numeric (float) timestamp per the
spec's output-format clause, yet `int("3.5")` raises `ValueError`, so the
post-processing fails on this log although every line's leading field is a
valid numeric timestamp per the claim. -/
theorem floatTimestampRejected :
    isSpecNumericTimestamp (leadingField "3.5,label") = true ∧
    postProcess ["3.5,label"] = none := by
  constructor <;> rfl

/-- C3 (amended): the post-processing step fails — and then nothing is
written to the destination, since the sort at trainer.py line 127 raises
before the file is opened at line 131 — if and only if some trace line's
leading comma-separated field is not a valid Python *integer* literal; a
float leading field is also rejected. -/
theorem postProcessFailsIffBadIntegerField (log : List String) :
    postProcess log = none ↔ ∃ s ∈ log, lineKey? s = none := by
  cases h : log.all (fun s => (lineKey? s).isSome) with
  | true =>
    simp only [postProcess, h, if_true]
    rw [List.all_eq_true] at h
    constructor
    · intro hc
      exact Option.noConfusion hc
    · rintro ⟨s, hs, hnone⟩
      have hsome := h s hs
      rw [hnone] at hsome
      exact Bool.noConfusion hsome
  | false =>
    simp only [postProcess, h, Bool.false_eq_true, if_false]
    constructor
    · intro _
      rw [List.all_eq_false] at h
      obtain ⟨s, hs, hn⟩ := h
      refine ⟨s, hs, ?_⟩
      cases ho : lineKey? s with
      | none => rfl
      | some v =>
        rw [ho] at hn
        exact absurd rfl hn
    · intro _
      trivial

/-- C7: in trainer.py lines 121-126 the recorder is initialized exactly
once and finished exactly once, and the actions strictly between the two
are exactly one profiled step cycle followed by the full device
synchronization barrier — so the barrier precedes `finish_trace`, and no
other step cycle executes between `init_trace` and `finish_trace`. -/
theorem profiledPhaseInitStepSyncFinish :
    trainActions.count Action.initTrace = 1 ∧
    trainActions.count Action.finishTrace = 1 ∧
    trainActions.count (Action.trainStep true) = 1 ∧
    (trainActions.drop (trainActions.indexOf Action.initTrace)).take 4
      = [Action.initTrace, Action.trainStep true, Action.sync,
         Action.finishTrace] := by
  decide

/-- Every step index occurring in `ks` with `failAt k` set makes
`runSteps` abort with an error (the first failing index). -/
theorem runStepsErrorOfMem (failAt : Nat → Bool) :
    ∀ (ks : List Nat), ∀ k ∈ ks, failAt k = true →
      ∃ e, runSteps failAt ks = Except.error e := by
  intro ks
  induction ks with
  | nil =>
    intro k hk
    exact absurd hk (List.not_mem_nil k)
  | cons j ks ih =>
    intro k hk hf
    by_cases hj : failAt j = true
    · exact ⟨j, by simp [runSteps, hj]⟩
    · rcases List.mem_cons.mp hk with rfl | hmem
      · exact absurd hf hj
      · obtain ⟨e, he⟩ := ih k hmem hf
        exact ⟨e, by simp [runSteps, hj, he]⟩

/-- C9: before the profiled step, `train` executes exactly 10 warm-up step
cycles and then 5 steady-state step cycles, all before the unique
`init_trace` (so no recorder session is active during them), and an
exception raised in any of these 15 steps propagates: `train` aborts with
that error and produces no trace. -/
theorem warmupSteadyThenAbortOnFailure (failAt : Nat → Bool)
    (names : List String) (k : Nat) (hk : k < 15) (hf : failAt k = true) :
    (trainActions.takeWhile (fun a => a != Action.initTrace)).count
        (Action.trainStep false) = 15 ∧
    (trainActions.takeWhile (fun a => a != Action.cudnnBenchmark false)).count
        (Action.trainStep false) = 10 ∧
    trainActions.count Action.initTrace = 1 ∧
    ∃ e, runTrain failAt names = Except.error e := by
  refine ⟨by decide, by decide, by decide, ?_⟩
  have hmem : k ∈ List.range 10 ++ (List.range 5).map (fun i => 10 + i) := by
    rcases Nat.lt_or_ge k 10 with h10 | h10
    · exact List.mem_append_left _ (List.mem_range.mpr h10)
    · refine List.mem_append_right _ ?_
      exact List.mem_map.mpr ⟨k - 10, List.mem_range.mpr (by omega), by omega⟩
  obtain ⟨e, he⟩ := runStepsErrorOfMem failAt _ k hmem hf
  exact ⟨e, by simp [runTrain, he]⟩

/-- Witness for C9 with a failure injected into warm-up step 3. -/
theorem warmupSteadyThenAbortOnFailureWitness :
    (3 : Nat) < 15 ∧ (fun n : Nat => n == 3) 3 = true ∧
    ((trainActions.takeWhile (fun a => a != Action.initTrace)).count
        (Action.trainStep false) = 15 ∧
      (trainActions.takeWhile
          (fun a => a != Action.cudnnBenchmark false)).count
        (Action.trainStep false) = 10 ∧
      trainActions.count Action.initTrace = 1 ∧
      ∃ e, runTrain (fun n : Nat => n == 3) ["L1"] = Except.error e) :=
  ⟨by decide, by decide,
    warmupSteadyThenAbortOnFailure (fun n : Nat => n == 3) ["L1"] 3
      (by decide) (by decide)⟩

/-- The sort key comparison of trainer.py line 127 is transitive. -/
theorem traceLeTrans : ∀ a b c : String,
    decide (lineKey a ≤ lineKey b) = true →
    decide (lineKey b ≤ lineKey c) = true →
    decide (lineKey a ≤ lineKey c) = true := by
  intro a b c h1 h2
  simp only [decide_eq_true_eq] at h1 h2 ⊢
  omega

/-- The sort key comparison of trainer.py line 127 is total. -/
theorem traceLeTotal : ∀ a b : String,
    (decide (lineKey a ≤ lineKey b) || decide (lineKey b ≤ lineKey a)) = true := by
  intro a b
  simp only [Bool.or_eq_true, decide_eq_true_eq]
  omega

/-- C4: the sort performed on the trace lines at trainer.py line 127 is a
stable ascending sort on the leading numeric field: it permutes the log,
orders it ascending by key, keeps every group of tied-key lines in its
original relative (insertion) order, and sorting an already-sorted log is
the identity, so sorting twice equals sorting once. -/
theorem traceSortStableAscendingIdempotent (log : List String)
    (_hparse : ∀ s ∈ log, (lineKey? s).isSome = true) :
    List.Perm (sortTrace log) log ∧
    (sortTrace log).Pairwise (fun a b => lineKey a ≤ lineKey b) ∧
    (∀ k : Int, (sortTrace log).filter (fun s => lineKey s == k)
        = log.filter (fun s => lineKey s == k)) ∧
    sortTrace (sortTrace log) = sortTrace log := by
  refine ⟨List.mergeSort_perm log _, ?_, ?_, ?_⟩
  · have h := List.sorted_mergeSort traceLeTrans traceLeTotal log
    exact h.imp (fun hab => by simpa using hab)
  · intro k
    have hmemk : ∀ s ∈ log.filter (fun s => lineKey s == k), lineKey s = k := by
      intro s hs
      have := (List.mem_filter.mp hs).2
      simpa using this
    have hc : (log.filter (fun s => lineKey s == k)).Pairwise
        (fun a b => decide (lineKey a ≤ lineKey b) = true) := by
      apply List.pairwise_of_forall_mem_list
      intro a ha b hb
      simp [hmemk a ha, hmemk b hb]
    have hsub : List.Sublist (log.filter (fun s => lineKey s == k))
        (sortTrace log) :=
      List.sublist_mergeSort traceLeTrans traceLeTotal hc
        (List.filter_sublist log)
    have hff : (log.filter (fun s => lineKey s == k)).filter
        (fun s => lineKey s == k) = log.filter (fun s => lineKey s == k) := by
      apply List.filter_eq_self.mpr
      intro a ha
      exact (List.mem_filter.mp ha).2
    have hsub2 : List.Sublist (log.filter (fun s => lineKey s == k))
        ((sortTrace log).filter (fun s => lineKey s == k)) := by
      have h2 := List.Sublist.filter (fun s => lineKey s == k) hsub
      rwa [hff] at h2
    have hperm : List.Perm ((sortTrace log).filter (fun s => lineKey s == k))
        (log.filter (fun s => lineKey s == k)) :=
      (List.mergeSort_perm log _).filter _
    exact (hsub2.eq_of_length hperm.length_eq.symm).symm
  · exact List.mergeSort_of_sorted
      (List.sorted_mergeSort traceLeTrans traceLeTotal log)

/-- Witness for C4 on a three-line log with a tied timestamp. -/
theorem traceSortStableAscendingIdempotentWitness :
    (∀ s ∈ (["2,b", "1,a", "2,c"] : List String),
      (lineKey? s).isSome = true) ∧
    (List.Perm (sortTrace ["2,b", "1,a", "2,c"]) ["2,b", "1,a", "2,c"] ∧
      (sortTrace ["2,b", "1,a", "2,c"]).Pairwise
        (fun a b => lineKey a ≤ lineKey b) ∧
      (∀ k : Int,
        (sortTrace ["2,b", "1,a", "2,c"]).filter (fun s => lineKey s == k)
          = (["2,b", "1,a", "2,c"] : List String).filter
              (fun s => lineKey s == k)) ∧
      sortTrace (sortTrace ["2,b", "1,a", "2,c"])
        = sortTrace ["2,b", "1,a", "2,c"]) :=
  ⟨by decide, traceSortStableAscendingIdempotent _ (by decide)⟩

/-- The stamped emission sequence of the three-layer profiled step, written
out line by line. -/
theorem stampedThreeLayer :
    stampLabels 0 (profiledStepLabels ["L1", "L2", "L3"]) = expectedTrace3 := by
  decide

/-- The expected three-layer trace is already ascending in its leading
integer field. -/
theorem expectedTrace3Ascending :
    expectedTrace3.Pairwise
      (fun a b => decide (lineKey a ≤ lineKey b) = true) := by
  decide

/-- The three-layer profiled trace is the stamped emission sequence: the
stamps are already ascending, so the sort of line 127 leaves them as
emitted. -/
theorem profiledTraceThreeLayer :
    profiledTrace ["L1", "L2", "L3"] = expectedTrace3 := by
  show sortTrace (stampLabels 0 (profiledStepLabels ["L1", "L2", "L3"]))
      = expectedTrace3
  rw [stampedThreeLayer]
  exact List.mergeSort_of_sorted expectedTrace3Ascending

/-- C8 counterexample: one profiled step on the three-layer model yields 16
trace lines, not 12 — the claim's own enumeration (forward start/end for 3
layers, backward start/end for 3 layers, loss start/end) already totals 14,
and the optimizer's spec-mandated profiled events add two more. -/
theorem profiledTraceNotTwelveLines :
    (profiledTrace ["L1", "L2", "L3"]).length ≠ 12 := by
  rw [profiledTraceThreeLayer]
  decide

/-- C8 (amended): one profiled step on the three-layer model L1, L2, L3
yields a trace of exactly 16 lines — the 14 layer/loss events the claim
enumerates (6 forward, 6 backward, 2 loss) plus the optimizer's own two
profiled events — sorted ascending, with L3's backward events preceding
L2's and L2's preceding L1's. -/
theorem profiledTraceThreeLayerCharacterized :
    profiledTrace ["L1", "L2", "L3"] = expectedTrace3 ∧
    (profiledTrace ["L1", "L2", "L3"]).length = 16 ∧
    ((profiledStepLabels ["L1", "L2", "L3"]).filter
        (fun l => l != "optimizer step start"
          && l != "optimizer step end")).length = 14 ∧
    (profiledTrace ["L1", "L2", "L3"]).Pairwise
      (fun a b => lineKey a ≤ lineKey b) ∧
    expectedTrace3.indexOf "9,backward end L3"
      < expectedTrace3.indexOf "10,backward start L2" ∧
    expectedTrace3.indexOf "11,backward end L2"
      < expectedTrace3.indexOf "12,backward start L1" := by
  refine ⟨profiledTraceThreeLayer, ?_, by decide, ?_, by decide, by decide⟩
  · rw [profiledTraceThreeLayer]
    decide
  · rw [profiledTraceThreeLayer]
    exact expectedTrace3Ascending.imp (fun hab => by simpa using hab)

end VTrain
